import Mathlib

/-!
Verification development for the AI mock-interview application.

The definitions below are a shallow embedding of the Python source:

* `src/config/settings.py` / `src/Interview.py` — `InterviewConfig`, `CONFIG`;
* `src/utils/helper.py` — `Utils.validate_cv`;
* `src/services/llm_service.py` / `src/Interview.py` — `LLMService.evaluate_full_interview`
  and `LLMService._get_fallback_evaluation`;
* `src/Interview.py` — `DatabaseManager` (save/fetch operations, analytics) and the
  stage handlers `show_input_stage`, `show_interview_stage`, `show_results_stage`;
* `src/ui/pages/interview_page.py`, `src/ui/pages/results_page.py`,
  `src/database/manager.py` — the modular variants of the same handlers.

Numeric score values are modelled as rationals, Python strings as `String`,
JSON-nullable columns as `Option`, and the SQLite backend as an explicit record
that either executes an operation or raises (field `fail`).
-/

/-! ## Configuration (`src/config/settings.py`, `src/Interview.py` lines 49-58) -/

structure InterviewConfig where
  min_answer_length : Nat := 50
  max_questions : Nat := 10
  time_limit_per_question : Nat := 300
  passing_score : ℚ := 70
  enable_voice : Bool := true
  enable_analytics : Bool := true
deriving DecidableEq

def CONFIG : InterviewConfig := {}

/-! ## Data model -/

/-- A generated interview question (shape produced by
`analyze_cv_and_generate_questions` and `_get_fallback_questions`). -/
structure Question where
  id : Nat
  category : String
  question : String
  context : String
  expected_answer_points : List String
  difficulty : String
deriving DecidableEq

/-- Per-answer metadata kept in `st.session_state.answer_metadata`. -/
structure AnswerMeta where
  response_time : Nat
  skipped : Bool
deriving DecidableEq

/-- The interview flow stages routed on `st.session_state.stage`
(`'input' | 'interview' | 'results' | 'history' | 'analytics'`). -/
inductive Stage where
  | input
  | interview
  | results
  | history
  | analytics
deriving DecidableEq

/-- The mutable per-user session fields the stage handlers read and write. -/
structure SessionState where
  questions : List Question
  answers : List String
  answer_metadata : List AnswerMeta
  current_question_idx : Nat
  stage : Stage
deriving DecidableEq

/-! ## Evaluation payload (the JSON contract of `evaluate_full_interview`) -/

structure Recommendation where
  decision : String
  confidence : String
  reasoning : String
  next_steps : List String
deriving DecidableEq

structure DevelopmentPlan where
  priority_areas : List String
  suggested_actions : List String
  timeline : String
deriving DecidableEq

/-- A parsed evaluation response.  `scores` keeps the JSON object as an
association list in key order, so a missing category is a missing key. -/
structure Evaluation where
  scores : List (String × ℚ)
  category_feedback : List (String × String)
  overall_assessment : String
  strengths : List String
  weaknesses : List String
  red_flags : List String
  recommendation : Recommendation
  development_plan : DevelopmentPlan
deriving DecidableEq

/-- The eight fixed competency categories used by the scoring schema. -/
def eightCategories : List String :=
  ["komunikasi", "problem_solving", "leadership", "teamwork",
   "pengetahuan_teknis", "adaptabilitas", "kreativitas", "critical_thinking"]

/-- `LLMService._get_fallback_evaluation` (`src/Interview.py` lines 796-838):
the hardcoded evaluation substituted when the API call fails or returns
unparsable content. -/
def get_fallback_evaluation : Evaluation where
  scores :=
    [("komunikasi", 75), ("problem_solving", 72), ("leadership", 70),
     ("teamwork", 78), ("pengetahuan_teknis", 68), ("adaptabilitas", 74),
     ("kreativitas", 71), ("critical_thinking", 73)]
  category_feedback :=
    [("komunikasi", "Komunikasi cukup jelas, perlu lebih terstruktur"),
     ("problem_solving", "Menunjukkan kemampuan analitis yang baik"),
     ("leadership", "Potensi leadership terlihat, perlu lebih banyak contoh"),
     ("teamwork", "Kemampuan kolaborasi sangat baik"),
     ("pengetahuan_teknis", "Perlu memperdalam pengetahuan teknis"),
     ("adaptabilitas", "Menunjukkan fleksibilitas yang memadai"),
     ("kreativitas", "Ide-ide cukup inovatif"),
     ("critical_thinking", "Analytical thinking cukup baik")]
  overall_assessment :=
    "Kandidat menunjukkan performa yang cukup baik dengan potensi untuk berkembang. Beberapa area memerlukan peningkatan."
  strengths := ["Komunikasi yang baik", "Kemampuan teamwork", "Adaptabilitas"]
  weaknesses :=
    ["Pengetahuan teknis perlu diperdalam", "Leadership presence bisa lebih kuat"]
  red_flags := []
  recommendation :=
    { decision := "Maybe"
      confidence := "65%"
      reasoning := "Kandidat potensial namun perlu evaluasi lebih lanjut pada aspek teknis"
      next_steps := ["Technical deep-dive", "Meet the team", "Case study"] }
  development_plan :=
    { priority_areas := ["Pengetahuan Teknis", "Leadership Skills"]
      suggested_actions :=
        ["Ikuti training/sertifikasi teknis",
         "Ambil leadership role dalam project",
         "Pelajari best practices industri"]
      timeline := "3-6 bulan" }

/-- `LLMService.evaluate_full_interview` (`src/services/llm_service.py` lines
144-197, identical control flow in `src/Interview.py` lines 571-656).
`resp` is the raw `_call_openai` result (`None` when the API call raised or
timed out); `parse` models `json.loads` into the typed contract, returning
`none` when the content is unparsable.  Any failure is caught and replaced by
the fallback payload. -/
def evaluate_full_interview (resp : Option String)
    (parse : String → Option Evaluation) : Evaluation :=
  match resp with
  | none => get_fallback_evaluation
  | some s =>
    match parse s with
    | none => get_fallback_evaluation
    | some ev => ev

/-! ## CV validation (`src/utils/helper.py` lines 52-69) -/

/-- Python's `str.strip()`: drop whitespace from both ends of the
code-point sequence. -/
def pyStrip (s : String) : String :=
  String.mk (((s.data.dropWhile Char.isWhitespace).reverse.dropWhile
    Char.isWhitespace).reverse)

/-- Python's `str.lower()` on the code-point sequence. -/
def pyLower (s : String) : String := String.mk (s.data.map Char.toLower)

/-- Decides whether `needle` occurs at the head of `hay`. -/
def leadsWith : List Char → List Char → Bool
  | [], _ => true
  | _ :: _, [] => false
  | n :: ns, h :: hs => n == h && leadsWith ns hs

/-- Decides whether `needle` is a contiguous subsequence of `hay`
(the semantics of Python's `needle in hay` on strings). -/
def containsSub (hay needle : List Char) : Bool :=
  match hay with
  | [] => needle.isEmpty
  | _ :: t => leadsWith needle hay || containsSub t needle

def strContainsSub (hay needle : String) : Bool :=
  containsSub hay.data needle.data

def experienceWords : List String := ["pengalaman", "experience", "kerja", "work"]

def skillWords : List String := ["skill", "kemampuan", "keahlian", "kompeten"]

/-- `Utils.validate_cv`: note that the minimum-length check is applied to the
whitespace-stripped text while the maximum-length check uses the raw text. -/
def validate_cv (cv_text : String) : Bool × String :=
  if cv_text = "" ∨ (pyStrip cv_text).length < 100 then
    (false, "CV terlalu singkat. Minimal 100 karakter.")
  else if cv_text.length > 10000 then
    (false, "CV terlalu panjang. Maksimal 10.000 karakter.")
  else
    let cv_lower := pyLower cv_text
    let has_experience := experienceWords.any (fun w => strContainsSub cv_lower w)
    let has_skills := skillWords.any (fun w => strContainsSub cv_lower w)
    if !(has_experience || has_skills) then
      (false, "CV harus mencantumkan pengalaman atau keahlian.")
    else
      (true, "CV valid")

/-- The submit branch of `show_input_stage` (`src/Interview.py` lines
1512-1572): on any validation failure an error message is reported and the
handler returns without touching the stage; on success the session is
(re)initialised with the generated questions and the stage becomes
`'interview'`.  `gen_questions` stands for the question list produced by
`analyze_cv_and_generate_questions` (live or fallback). -/
def show_input_stage_submit (cv_text target_job : String)
    (gen_questions : List Question) (s : SessionState) :
    SessionState × Option String :=
  if cv_text = "" then
    (s, some "CV tidak boleh kosong! Mohon upload PDF atau ketik CV Anda.")
  else
    let v := validate_cv cv_text
    if !v.1 then
      (s, some v.2)
    else if target_job = "" then
      (s, some "Mohon isi posisi yang dituju!")
    else
      ({ s with
          questions := gen_questions
          answers := []
          answer_metadata := []
          current_question_idx := 0
          stage := Stage.interview }, none)

/-! ## Interview stage, monolithic handler (`src/Interview.py` lines 1574-1758)

All three buttons are rendered only while `current_question_idx <
len(questions)`, so each handler is the identity outside that guard. -/

/-- The sentinel stored for a skipped question. -/
def skippedSentinel : String := "[Skipped]"

/-- The `Next ➡️` button of `show_interview_stage` (lines 1722-1758).
Rejects an empty answer or one shorter than `min_answer_length`; otherwise
appends or overwrites the answer and its metadata at the current position,
advances the position, and moves to the results stage when past the last
question. -/
def interview_next_mono (cfg : InterviewConfig) (answer : String)
    (response_time : Nat) (s : SessionState) : SessionState :=
  if s.current_question_idx < s.questions.length then
    if answer = "" ∨ answer.length < cfg.min_answer_length then s
    else
      let s1 :=
        if s.answers.length ≤ s.current_question_idx then
          { s with answers := s.answers ++ [answer]
                   answer_metadata := s.answer_metadata ++ [⟨response_time, false⟩] }
        else
          { s with answers := s.answers.set s.current_question_idx answer
                   answer_metadata :=
                     s.answer_metadata.set s.current_question_idx ⟨response_time, false⟩ }
      let s2 := { s1 with current_question_idx := s1.current_question_idx + 1 }
      if s2.questions.length ≤ s2.current_question_idx then
        { s2 with stage := Stage.results }
      else s2
  else s

/-- The `⏭️ Skip` button of `show_interview_stage` (lines 1704-1720): appends
the sentinel and metadata only when the position is at the frontier, then
always advances. -/
def interview_skip_mono (s : SessionState) : SessionState :=
  if s.current_question_idx < s.questions.length then
    let s1 :=
      if s.current_question_idx < s.answers.length then s
      else
        { s with answers := s.answers ++ [skippedSentinel]
                 answer_metadata := s.answer_metadata ++ [⟨0, true⟩] }
    let s2 := { s1 with current_question_idx := s1.current_question_idx + 1 }
    if s2.questions.length ≤ s2.current_question_idx then
      { s2 with stage := Stage.results }
    else s2
  else s

/-- The `⬅️ Previous` button (disabled at position 0). -/
def interview_prev_mono (s : SessionState) : SessionState :=
  if s.current_question_idx < s.questions.length then
    if 0 < s.current_question_idx then
      { s with current_question_idx := s.current_question_idx - 1 }
    else s
  else s

/-- Sidebar/footer navigation: only the stage field changes. -/
def navigate_to (target : Stage) (s : SessionState) : SessionState :=
  { s with stage := target }

/-- The events of the monolithic interview stage. -/
inductive MonoEvent where
  | next (answer : String) (response_time : Nat)
  | skip
  | prev
  | nav (target : Stage)
deriving DecidableEq

def mono_step (cfg : InterviewConfig) : MonoEvent → SessionState → SessionState
  | MonoEvent.next a rt => interview_next_mono cfg a rt
  | MonoEvent.skip => interview_skip_mono
  | MonoEvent.prev => interview_prev_mono
  | MonoEvent.nav t => navigate_to t

/-- A run of the monolithic interview stage over a list of events. -/
def mono_run (cfg : InterviewConfig) (es : List MonoEvent) (s : SessionState) :
    SessionState :=
  es.foldl (fun st e => mono_step cfg e st) s

/-- The session state right after `show_input_stage` succeeds. -/
def init_session (qs : List Question) : SessionState :=
  { questions := qs
    answers := []
    answer_metadata := []
    current_question_idx := 0
    stage := Stage.interview }

/-! ## Interview stage, modular handler (`src/ui/pages/interview_page.py`) -/

/-- The top of `show_interview_page` (lines 36-42): when the position has
passed the last question the page switches to the results stage before any
button is rendered. -/
def interview_page_load (s : SessionState) : SessionState :=
  if s.questions.length ≤ s.current_question_idx then
    { s with stage := Stage.results }
  else s

/-- The `Berikutnya ➡️` button (lines 229-271): additionally rejects
whitespace-only answers, and re-checks the metadata length before choosing
between append and overwrite. -/
def interview_next_page (cfg : InterviewConfig) (answer : String)
    (response_time : Nat) (s : SessionState) : SessionState :=
  if s.current_question_idx < s.questions.length then
    if answer = "" ∨ pyStrip answer = "" then s
    else if answer.length < cfg.min_answer_length then s
    else
      let s1 :=
        if s.answers.length ≤ s.current_question_idx then
          { s with answers := s.answers ++ [answer]
                   answer_metadata := s.answer_metadata ++ [⟨response_time, false⟩] }
        else
          let sa := { s with answers := s.answers.set s.current_question_idx answer }
          if sa.answer_metadata.length ≤ sa.current_question_idx then
            { sa with answer_metadata := sa.answer_metadata ++ [⟨response_time, false⟩] }
          else
            { sa with answer_metadata :=
                sa.answer_metadata.set sa.current_question_idx ⟨response_time, false⟩ }
      let s2 := { s1 with current_question_idx := s1.current_question_idx + 1 }
      if s2.questions.length ≤ s2.current_question_idx then
        { s2 with stage := Stage.results }
      else s2
  else s

/-- The `⏭️ Lewati` button (lines 200-227). -/
def interview_skip_page (s : SessionState) : SessionState :=
  if s.current_question_idx < s.questions.length then
    let s1 :=
      if s.answers.length ≤ s.current_question_idx then
        { s with answers := s.answers ++ [skippedSentinel]
                 answer_metadata := s.answer_metadata ++ [⟨0, true⟩] }
      else
        let sa := { s with answers := s.answers.set s.current_question_idx skippedSentinel }
        if sa.answer_metadata.length ≤ sa.current_question_idx then
          { sa with answer_metadata := sa.answer_metadata ++ [⟨0, true⟩] }
        else
          { sa with answer_metadata :=
              sa.answer_metadata.set sa.current_question_idx ⟨0, true⟩ }
    let s2 := { s1 with current_question_idx := s1.current_question_idx + 1 }
    if s2.questions.length ≤ s2.current_question_idx then
      { s2 with stage := Stage.results }
    else s2
  else s

/-- The `💾 Simpan Draf` button (lines 188-197): a non-empty answer is written
into the answers list — appended when the position is at the frontier — but no
metadata entry is written and the position does not move. -/
def interview_draft_page (answer : String) (s : SessionState) : SessionState :=
  if s.current_question_idx < s.questions.length then
    if answer = "" then s
    else if s.answers.length ≤ s.current_question_idx then
      { s with answers := s.answers ++ [answer] }
    else
      { s with answers := s.answers.set s.current_question_idx answer }
  else s

/-- The `⬅️ Sebelumnya` button (lines 182-185). -/
def interview_prev_page (s : SessionState) : SessionState :=
  if s.current_question_idx < s.questions.length then
    if 0 < s.current_question_idx then
      { s with current_question_idx := s.current_question_idx - 1 }
    else s
  else s

/-- The events of the modular interview page. -/
inductive PageEvent where
  | next (answer : String) (response_time : Nat)
  | skip
  | prev
  | draft (answer : String)
  | load
  | nav (target : Stage)
deriving DecidableEq

def page_step (cfg : InterviewConfig) : PageEvent → SessionState → SessionState
  | PageEvent.next a rt => interview_next_page cfg a rt
  | PageEvent.skip => interview_skip_page
  | PageEvent.prev => interview_prev_page
  | PageEvent.draft a => interview_draft_page a
  | PageEvent.load => interview_page_load
  | PageEvent.nav t => navigate_to t

/-! ## Persistence layer (`src/Interview.py` `DatabaseManager`, lines 64-421)

The SQLite backend is modelled as an in-memory record.  `fail = some e`
means every cursor operation raises the storage error `e`; `fail = none`
means every operation succeeds.  Functions whose Python body is wrapped in
`try/except` return a `Bool`; the fetches, which have no handler, return
`Except` so a backend error propagates to the caller. -/

/-- One row of `interview_results`.  Nullable text columns are `Option`. -/
structure ResultRow where
  user_id : String
  session_id : String
  job_title : String
  difficulty_level : Option String
  komunikasi : ℚ
  problem_solving : ℚ
  leadership : ℚ
  teamwork : ℚ
  pengetahuan_teknis : ℚ
  adaptabilitas : ℚ
  kreativitas : ℚ
  critical_thinking : ℚ
  total_score : ℚ
  pass_status : Bool
  interview_duration : Nat
  questions_answered : Nat
  interview_transcript : Option (List (Question × String))
  detailed_feedback : Option Evaluation
  recommendations : Option Recommendation
deriving DecidableEq

/-- One row of `qa_history`. -/
structure QaRow where
  user_id : String
  session_id : String
  question_id : Nat
  category : String
  question : String
  answer : String
  answer_length : Nat
  response_time : Nat
  score : ℚ
  feedback : String
deriving DecidableEq

/-- One row of `user_profiles`. -/
structure ProfileRow where
  user_id : String
  email : Option String
  full_name : Option String
  cv_text : String
  target_job : String
deriving DecidableEq

/-- The storage backend: the stored tables in insertion (= chronological)
order, plus a raised-error mode. -/
structure Db where
  profiles : List ProfileRow
  results : List ResultRow
  qa : List QaRow
  fail : Option String
deriving DecidableEq

/-- The `result_data` dictionary handed to `save_interview_result`. -/
structure ResultData where
  job_title : String
  difficulty : Option String
  scores : List (String × ℚ)
  duration : Nat
  questions_answered : Nat
  transcript : Option (List (Question × String))
  detailed_feedback : Option Evaluation
  recommendations : Option Recommendation
deriving DecidableEq

/-- The row `DatabaseManager.save_interview_result` (lines 261-295) builds and
inserts: the total score is recomputed inside the storage layer as
`sum(scores.values()) / len(scores)` and the pass flag compares it against
`CONFIG.passing_score`; the eight category columns are `scores.get(key, 0)`. -/
def interview_result_row (cfg : InterviewConfig) (session_id user_id : String)
    (rd : ResultData) : ResultRow :=
  let total_score := ((rd.scores.map Prod.snd).sum) / (rd.scores.length : ℚ)
  { user_id := user_id
    session_id := session_id
    job_title := rd.job_title
    difficulty_level := rd.difficulty
    komunikasi := ((rd.scores.lookup "komunikasi").getD 0)
    problem_solving := ((rd.scores.lookup "problem_solving").getD 0)
    leadership := ((rd.scores.lookup "leadership").getD 0)
    teamwork := ((rd.scores.lookup "teamwork").getD 0)
    pengetahuan_teknis := ((rd.scores.lookup "pengetahuan_teknis").getD 0)
    adaptabilitas := ((rd.scores.lookup "adaptabilitas").getD 0)
    kreativitas := ((rd.scores.lookup "kreativitas").getD 0)
    critical_thinking := ((rd.scores.lookup "critical_thinking").getD 0)
    total_score := total_score
    pass_status := decide (cfg.passing_score ≤ total_score)
    interview_duration := rd.duration
    questions_answered := rd.questions_answered
    interview_transcript := rd.transcript
    detailed_feedback := rd.detailed_feedback
    recommendations := rd.recommendations }

/-- `DatabaseManager.save_interview_result`: the whole body is inside
`try/except`, so a backend failure is caught and surfaced as `False`. -/
def save_interview_result (cfg : InterviewConfig) (db : Db)
    (session_id user_id : String) (rd : ResultData) : Db × Bool :=
  match db.fail with
  | some _ => (db, false)
  | none =>
    ({ db with results := db.results ++ [interview_result_row cfg session_id user_id rd] },
     true)

/-- The `qa_data` dictionary handed to `save_qa_pair`. -/
structure QaData where
  user_id : String
  question_id : Nat
  category : String
  question : String
  answer : String
  response_time : Nat
deriving DecidableEq

/-- `DatabaseManager.save_qa_pair` (lines 297-320): also fully guarded by
`try/except`; `answer_length` is computed as `len(answer)`. -/
def save_qa_pair (db : Db) (session_id : String) (qa : QaData) : Db × Bool :=
  match db.fail with
  | some _ => (db, false)
  | none =>
    ({ db with qa := db.qa ++
        [{ user_id := qa.user_id
           session_id := session_id
           question_id := qa.question_id
           category := qa.category
           question := qa.question
           answer := qa.answer
           answer_length := qa.answer.length
           response_time := qa.response_time
           score := 0
           feedback := "" }] },
     true)

/-- The monolithic `DatabaseManager.save_user_profile` (`src/Interview.py`
lines 227-259, where `json` IS imported): fully guarded by `try/except`, so a
backend failure is caught and surfaced as `False`, and on a healthy backend
the profile row is upserted and `True` returned. -/
def save_user_profile_mono (db : Db) (user_id : String) (p : ProfileRow) : Db × Bool :=
  match db.fail with
  | some _ => (db, false)
  | none => ({ db with profiles := db.profiles ++ [{ p with user_id := user_id }] }, true)

/-- The modular `DatabaseManager.save_user_profile`
(`src/database/manager.py` lines 139-160).  That module imports only
`sqlite3` and `os` — never `json` — so evaluating the statement-152 argument
`json.dumps(profile_data.get('preferences', dict()))` raises `NameError` on
every call, before the INSERT runs; the `except` clause catches it and the
function returns `False` unconditionally, with no row written, regardless of
whether the backend itself is healthy. -/
def save_user_profile (db : Db) (user_id : String) (p : ProfileRow) : Db × Bool :=
  (db, false)

/-- `DatabaseManager.get_user_history` (lines 322-337): there is NO
`try/except` around the query, so a backend error propagates to the caller;
on success the user's rows are returned newest first, at most `limit`. -/
def get_user_history (db : Db) (user_id : String) (limit : Nat) :
    Except String (List ResultRow) :=
  match db.fail with
  | some e => Except.error e
  | none => Except.ok (((db.results.filter (fun r => r.user_id = user_id)).reverse).take limit)

/-! ## Analytics (`src/Interview.py` `DatabaseManager.get_analytics_data`,
lines 363-421) -/

/-- Python's `round(x, 2)` on the rationals standing for the stored REAL
values: round half to even at the second decimal. -/
def pyRoundInt (q : ℚ) : ℤ :=
  if q - Int.floor q = 1 / 2 then
    (if 2 ∣ Int.floor q then Int.floor q else Int.floor q + 1)
  else round q

def round2 (q : ℚ) : ℚ := (pyRoundInt (q * 100) : ℚ) / 100

/-- The improvement-rate block (lines 385-389) applied to the user's
`total_score` column in `created_at ASC` order. -/
def improvement_rate_raw (scores : List ℚ) : ℚ :=
  if 2 ≤ scores.length then
    let first_score := scores.headD 0
    let last_score := scores.getLastD 0
    if 0 < first_score then ((last_score - first_score) / first_score) * 100 else 0
  else 0

/-- Python's `max(items, key=...)`: the fold keeps the current maximum and
replaces it only on a strictly greater key, so ties resolve to the
first-encountered entry. -/
def pyMaxBySnd : List (String × ℚ) → Option (String × ℚ)
  | [] => none
  | x :: xs => some (xs.foldl (fun acc y => if acc.2 < y.2 then y else acc) x)

/-- Python's `min(items, key=...)`, dually. -/
def pyMinBySnd : List (String × ℚ) → Option (String × ℚ)
  | [] => none
  | x :: xs => some (xs.foldl (fun acc y => if y.2 < acc.2 then y else acc) x)

/-- The `areas` dictionary (lines 400-407): six category averages, in
insertion order. -/
def analytics_areas (kom ps lead team tech adapt : ℚ) : List (String × ℚ) :=
  [("Komunikasi", kom), ("Problem Solving", ps), ("Leadership", lead),
   ("Teamwork", team), ("Pengetahuan Teknis", tech), ("Adaptabilitas", adapt)]

/-- `strongest = max(areas.items(), key=lambda x: x[1])` (line 409); the
`if areas` guard always holds since the dictionary has six fixed keys. -/
def strongest_area (kom ps lead team tech adapt : ℚ) : String × ℚ :=
  (pyMaxBySnd (analytics_areas kom ps lead team tech adapt)).getD ("N/A", 0)

/-- `weakest = min(areas.items(), key=lambda x: x[1])` (line 410). -/
def weakest_area (kom ps lead team tech adapt : ℚ) : String × ℚ :=
  (pyMinBySnd (analytics_areas kom ps lead team tech adapt)).getD ("N/A", 0)

/-- SQL `AVG` over a column (`NULL`, read back as 0 through `or 0`, when
there are no rows). -/
def sqlAvg (xs : List ℚ) : ℚ :=
  if xs.length = 0 then 0 else xs.sum / (xs.length : ℚ)

/-- The aggregate returned by the monolithic `get_analytics_data`. -/
structure Analytics where
  total_interviews : Nat
  avg_score : ℚ
  improvement_rate : ℚ
  strongest_area : String × ℚ
  weakest_area : String × ℚ
deriving DecidableEq

/-- `DatabaseManager.get_analytics_data` (`src/Interview.py` lines 363-421)
applied to the user's result rows in chronological (`created_at ASC`) order.
`avg_score` and `improvement_rate` are reported through `round(x, 2)`. -/
def get_analytics_data (rows : List ResultRow) : Analytics :=
  let scores := rows.map (fun r => r.total_score)
  let kom := sqlAvg (rows.map (fun r => r.komunikasi))
  let ps := sqlAvg (rows.map (fun r => r.problem_solving))
  let lead := sqlAvg (rows.map (fun r => r.leadership))
  let team := sqlAvg (rows.map (fun r => r.teamwork))
  let tech := sqlAvg (rows.map (fun r => r.pengetahuan_teknis))
  let adapt := sqlAvg (rows.map (fun r => r.adaptabilitas))
  { total_interviews := rows.length
    avg_score := round2 (sqlAvg scores)
    improvement_rate := round2 (improvement_rate_raw scores)
    strongest_area := strongest_area kom ps lead team tech adapt
    weakest_area := weakest_area kom ps lead team tech adapt }

/-- Db-level wrapper of the monolithic analytics fetch: like the history
fetch it has no `try/except`, so a backend error propagates. -/
def get_analytics_data_db (db : Db) (user_id : String) : Except String Analytics :=
  match db.fail with
  | some e => Except.error e
  | none => Except.ok (get_analytics_data (db.results.filter (fun r => r.user_id = user_id)))

/-- The improvement rate of the modular
`DatabaseManager.get_analytics_data` (`src/database/manager.py` lines
171-175): `avg_score` is `AVG(total_score)` (`or 0`), and the improvement
query computes `AVG(total_score) - avg_score` over the same rows (`or 0`
when there are no rows, i.e. when the aggregate is `NULL`). -/
def improvement_rate_modular (scores : List ℚ) : ℚ :=
  let avg_score := sqlAvg scores
  if scores.length = 0 then 0 else scores.sum / (scores.length : ℚ) - avg_score

/-! ## Results stage (`src/Interview.py` `show_results_stage`, lines
1760-1803, and `src/ui/pages/results_page.py` `show_results_page`,
lines 44-74) -/

/-- The `result_data` dictionary built by the monolithic `show_results_stage`
(lines 1776-1785): `questions_answered` counts the non-skipped answers, and
the transcript, detailed feedback and recommendations are all serialized. -/
def result_data_mono (job_title : String) (difficulty : Option String)
    (ev : Evaluation) (duration : Nat) (questions : List Question)
    (answers : List String) : ResultData :=
  { job_title := job_title
    difficulty := difficulty
    scores := ev.scores
    duration := duration
    questions_answered := (answers.filter (fun a => a ≠ skippedSentinel)).length
    transcript := some (questions.zip answers)
    detailed_feedback := some ev
    recommendations := some ev.recommendation }

/-- The `result_data` dictionary built by the modular `show_results_page`
(lines 61-68): `questions_answered` is `len(answers)` (skipped included), and
the `transcript` and `recommendations` keys are absent, so
`result_data.get(...)` inside `save_interview_result` reads `None`. -/
def result_data_page (job_title : String) (difficulty : Option String)
    (ev : Evaluation) (duration : Nat) (answers : List String) : ResultData :=
  { job_title := job_title
    difficulty := difficulty
    scores := ev.scores
    duration := duration
    questions_answered := answers.length
    transcript := none
    detailed_feedback := some ev
    recommendations := none }

/-- The per-answer `save_qa_pair` loop of the monolithic `show_results_stage`
(lines 1793-1803): one entry for each non-skipped answer, with the response
time read from the parallel metadata list. -/
def qa_history_mono (user_id : String) (questions : List Question)
    (answers : List String) (metadata : List AnswerMeta) : List QaData :=
  ((questions.zip answers).enum).filterMap (fun p =>
    if p.2.2 = skippedSentinel then none
    else some
      { user_id := user_id
        question_id := p.1
        category := p.2.1.category
        question := p.2.1.question
        answer := p.2.2
        response_time := (metadata.getD p.1 ⟨0, false⟩).response_time })

/-- `show_results_page` performs no `save_qa_pair` calls at all. -/
def qa_history_page : List QaData := []

/-- The automatic part of the monolithic results-stage handler: evaluate (with
fallback), build `result_data`, commit it together with the QA history, and
leave the session in the results stage.  The handler never reassigns
`st.session_state.stage`, so the returned stage is `results` by construction
of the function — mirroring that nothing in the handler can block or undo the
transition that brought the session here. -/
def show_results_stage (cfg : InterviewConfig) (db : Db)
    (resp : Option String) (parse : String → Option Evaluation)
    (session_id user_id job_title : String) (difficulty : Option String)
    (duration : Nat) (questions : List Question) (answers : List String)
    (metadata : List AnswerMeta) : Db × ResultRow × Stage :=
  let evaluation := evaluate_full_interview resp parse
  let rd := result_data_mono job_title difficulty evaluation duration questions answers
  let committed := save_interview_result cfg db session_id user_id rd
  let db2 := (qa_history_mono user_id questions answers metadata).foldl
    (fun d qa => (save_qa_pair d session_id qa).1) committed.1
  (db2, interview_result_row cfg session_id user_id rd, Stage.results)

/-! ## Sample data used by witnesses and counterexamples -/

def sampleQuestion : Question :=
  { id := 1
    category := "komunikasi"
    question := "Ceritakan pengalaman Anda mempresentasikan ide kompleks?"
    context := "Mengukur komunikasi efektif"
    expected_answer_points := ["Situasi", "Approach", "Hasil"]
    difficulty := "medium" }

def sampleQuestion2 : Question :=
  { id := 2
    category := "problem_solving"
    question := "Jelaskan masalah teknis tersulit yang pernah Anda hadapi?"
    context := "Menguji analytical skills"
    expected_answer_points := ["Kompleksitas", "Analisis", "Solusi"]
    difficulty := "hard" }

/-- A fresh two-question session at the interview stage. -/
def s0 : SessionState := init_session [sampleQuestion, sampleQuestion2]

/-- An ordinary answer of length well above the 50-character minimum. -/
def sampleAnswer : String :=
  "Saya pernah memimpin proyek migrasi sistem selama enam bulan bersama tim lintas divisi."

def sampleScores : List (String × ℚ) :=
  [("komunikasi", 80), ("problem_solving", 75), ("leadership", 70),
   ("teamwork", 85), ("pengetahuan_teknis", 60), ("adaptabilitas", 65),
   ("kreativitas", 55), ("critical_thinking", 70)]

def sampleResultData : ResultData :=
  { job_title := "Software Engineer"
    difficulty := some "Sedang"
    scores := sampleScores
    duration := 900
    questions_answered := 2
    transcript := none
    detailed_feedback := none
    recommendations := none }

/-! ## Claim C1 -/

/-- Claim C1: whenever the evaluation call to the collaborator raises, times
out (`resp = none`) or returns unparsable content (`parse` fails),
`evaluate_full_interview` returns the hardcoded fallback evaluation, in which
each of the eight category scores is present and non-null; and the
results-stage handler still commits a result and leaves the session in the
results stage — collaborator failure never blocks or fails the transition. -/
theorem C1_collaborator_failure_masked (cfg : InterviewConfig) (db : Db)
    (resp : Option String) (parse : String → Option Evaluation)
    (session_id user_id job_title : String) (difficulty : Option String)
    (duration : Nat) (questions : List Question) (answers : List String)
    (metadata : List AnswerMeta)
    (hfail : resp = none ∨ ∃ r, resp = some r ∧ parse r = none) :
    evaluate_full_interview resp parse = get_fallback_evaluation
    ∧ (∀ c ∈ eightCategories,
        ((get_fallback_evaluation).scores.lookup c).isSome = true)
    ∧ (show_results_stage cfg db resp parse session_id user_id job_title
        difficulty duration questions answers metadata).2.2 = Stage.results := by
  refine ⟨?_, by decide, rfl⟩
  rcases hfail with h | ⟨r, hr, hp⟩
  · simp [evaluate_full_interview, h]
  · simp [evaluate_full_interview, hr, hp]

theorem C1_witness :
    evaluate_full_interview none (fun _ => none) = get_fallback_evaluation
    ∧ (∀ c ∈ eightCategories,
        ((get_fallback_evaluation).scores.lookup c).isSome = true)
    ∧ (show_results_stage CONFIG ⟨[], [], [], none⟩ none (fun _ => none)
        "session_1" "user_1" "Software Engineer" (some "Sedang") 900
        [sampleQuestion, sampleQuestion2] [sampleAnswer, skippedSentinel]
        [⟨5, false⟩, ⟨0, true⟩]).2.2 = Stage.results :=
  C1_collaborator_failure_masked CONFIG ⟨[], [], [], none⟩ none (fun _ => none)
    "session_1" "user_1" "Software Engineer" (some "Sedang") 900
    [sampleQuestion, sampleQuestion2] [sampleAnswer, skippedSentinel]
    [⟨5, false⟩, ⟨0, true⟩] (Or.inl rfl)

/-! ## Claim C2 -/

/-- Claim C2: for every score mapping with exactly eight numeric entries, the
stored `total_score` is the unweighted arithmetic mean of the eight scores and
the stored pass flag is `total_score >= 70.0`, with the boundary
`total_score == 70.0` counted as passing. -/
theorem C2_total_score_mean_and_pass (session_id user_id : String)
    (rd : ResultData) (h8 : rd.scores.length = 8) :
    (interview_result_row CONFIG session_id user_id rd).total_score
      = (rd.scores.map Prod.snd).sum / 8
    ∧ ((interview_result_row CONFIG session_id user_id rd).pass_status = true
        ↔ 70 ≤ (interview_result_row CONFIG session_id user_id rd).total_score)
    ∧ ((interview_result_row CONFIG session_id user_id rd).total_score = 70
        → (interview_result_row CONFIG session_id user_id rd).pass_status = true) := by
  refine ⟨?_, ?_, ?_⟩
  · simp [interview_result_row, h8]
  · simp [interview_result_row, CONFIG]
  · intro h
    simp [interview_result_row, CONFIG] at h ⊢
    simp [h]

theorem C2_witness :
    (interview_result_row CONFIG "session_1" "user_1" sampleResultData).total_score
      = (sampleResultData.scores.map Prod.snd).sum / 8
    ∧ ((interview_result_row CONFIG "session_1" "user_1" sampleResultData).pass_status = true
        ↔ 70 ≤ (interview_result_row CONFIG "session_1" "user_1" sampleResultData).total_score)
    ∧ ((interview_result_row CONFIG "session_1" "user_1" sampleResultData).total_score = 70
        → (interview_result_row CONFIG "session_1" "user_1" sampleResultData).pass_status = true) :=
  C2_total_score_mean_and_pass "session_1" "user_1" sampleResultData (by decide)

/-! ## Claim C3 -/

/-- The invariant claimed by the specification:
`len(answer_metadata) == len(answers) <= len(questions)`. -/
def invEq (s : SessionState) : Prop :=
  s.answer_metadata.length = s.answers.length
  ∧ s.answers.length ≤ s.questions.length

/-- The weaker invariant that all transitions — including the modular
save-draft — actually maintain. -/
def invLe (s : SessionState) : Prop :=
  s.answer_metadata.length ≤ s.answers.length
  ∧ s.answers.length ≤ s.questions.length

/-- Claim C3 counterexample: pressing `💾 Simpan Draf` on a fresh question
appends the draft answer without any metadata entry, so
`len(answer_metadata) == len(answers)` is false in the post-state. -/
theorem C3_counterexample :
    (interview_draft_page "Jawaban draf." s0).answers.length = 1
    ∧ (interview_draft_page "Jawaban draf." s0).answer_metadata.length = 0
    ∧ ¬ invEq (interview_draft_page "Jawaban draf." s0) := by
  refine ⟨by decide, by decide, ?_⟩
  intro h
  have h1 : (interview_draft_page "Jawaban draf." s0).answer_metadata.length
      = (interview_draft_page "Jawaban draf." s0).answers.length := h.1
  revert h1
  decide

theorem invLe_next_mono (cfg : InterviewConfig) (a : String) (rt : Nat)
    (s : SessionState) (h : invLe s) : invLe (interview_next_mono cfg a rt s) := by
  obtain ⟨h1, h2⟩ := h
  unfold interview_next_mono
  dsimp only
  split_ifs <;> simp_all [invLe, List.length_append, List.length_set] <;> omega

theorem invEq_next_mono (cfg : InterviewConfig) (a : String) (rt : Nat)
    (s : SessionState) (h : invEq s) : invEq (interview_next_mono cfg a rt s) := by
  obtain ⟨h1, h2⟩ := h
  unfold interview_next_mono
  dsimp only
  split_ifs <;> simp_all [invEq, List.length_append, List.length_set] <;> omega

theorem invLe_skip_mono (s : SessionState) (h : invLe s) :
    invLe (interview_skip_mono s) := by
  obtain ⟨h1, h2⟩ := h
  unfold interview_skip_mono
  dsimp only
  split_ifs <;> simp_all [invLe, List.length_append, List.length_set] <;> omega

theorem invEq_skip_mono (s : SessionState) (h : invEq s) :
    invEq (interview_skip_mono s) := by
  obtain ⟨h1, h2⟩ := h
  unfold interview_skip_mono
  dsimp only
  split_ifs <;> simp_all [invEq, List.length_append, List.length_set] <;> omega

theorem invLe_prev_mono (s : SessionState) (h : invLe s) :
    invLe (interview_prev_mono s) := by
  obtain ⟨h1, h2⟩ := h
  unfold interview_prev_mono
  split_ifs <;> exact ⟨h1, h2⟩

theorem invEq_prev_mono (s : SessionState) (h : invEq s) :
    invEq (interview_prev_mono s) := by
  obtain ⟨h1, h2⟩ := h
  unfold interview_prev_mono
  split_ifs <;> exact ⟨h1, h2⟩

theorem invLe_next_page (cfg : InterviewConfig) (a : String) (rt : Nat)
    (s : SessionState) (h : invLe s) : invLe (interview_next_page cfg a rt s) := by
  obtain ⟨h1, h2⟩ := h
  unfold interview_next_page
  dsimp only
  split_ifs <;> simp_all [invLe, List.length_append, List.length_set] <;> omega

theorem invEq_next_page (cfg : InterviewConfig) (a : String) (rt : Nat)
    (s : SessionState) (h : invEq s) : invEq (interview_next_page cfg a rt s) := by
  obtain ⟨h1, h2⟩ := h
  unfold interview_next_page
  dsimp only
  split_ifs <;> simp_all [invEq, List.length_append, List.length_set] <;> omega

theorem invLe_skip_page (s : SessionState) (h : invLe s) :
    invLe (interview_skip_page s) := by
  obtain ⟨h1, h2⟩ := h
  unfold interview_skip_page
  dsimp only
  split_ifs <;> simp_all [invLe, List.length_append, List.length_set] <;> omega

theorem invEq_skip_page (s : SessionState) (h : invEq s) :
    invEq (interview_skip_page s) := by
  obtain ⟨h1, h2⟩ := h
  unfold interview_skip_page
  dsimp only
  split_ifs <;> simp_all [invEq, List.length_append, List.length_set] <;> omega

theorem invLe_draft_page (a : String) (s : SessionState) (h : invLe s) :
    invLe (interview_draft_page a s) := by
  obtain ⟨h1, h2⟩ := h
  unfold interview_draft_page
  split_ifs <;> simp_all [invLe, List.length_append, List.length_set] <;> omega

theorem invLe_prev_page (s : SessionState) (h : invLe s) :
    invLe (interview_prev_page s) := by
  obtain ⟨h1, h2⟩ := h
  unfold interview_prev_page
  split_ifs <;> exact ⟨h1, h2⟩

theorem invEq_prev_page (s : SessionState) (h : invEq s) :
    invEq (interview_prev_page s) := by
  obtain ⟨h1, h2⟩ := h
  unfold interview_prev_page
  split_ifs <;> exact ⟨h1, h2⟩

theorem invLe_page_load (s : SessionState) (h : invLe s) :
    invLe (interview_page_load s) := by
  obtain ⟨h1, h2⟩ := h
  unfold interview_page_load
  split_ifs <;> exact ⟨h1, h2⟩

theorem invEq_page_load (s : SessionState) (h : invEq s) :
    invEq (interview_page_load s) := by
  obtain ⟨h1, h2⟩ := h
  unfold interview_page_load
  split_ifs <;> exact ⟨h1, h2⟩

/-- Claim C3, amended: the equality invariant
`len(answer_metadata) == len(answers) <= len(questions)` is preserved by every
transition of the monolithic interview stage, and by every transition of the
modular interview page except save-draft; the save-draft transition preserves
only the weaker `len(answer_metadata) <= len(answers) <= len(questions)`
(it can append an answer without a metadata entry). -/
theorem C3_amended_invariants (cfg : InterviewConfig) (s : SessionState) :
    (∀ e : MonoEvent, invEq s → invEq (mono_step cfg e s))
    ∧ (∀ e : PageEvent, invLe s → invLe (page_step cfg e s))
    ∧ (∀ e : PageEvent, (∀ a, e ≠ PageEvent.draft a) → invEq s →
        invEq (page_step cfg e s)) := by
  refine ⟨?_, ?_, ?_⟩
  · intro e h
    cases e with
    | next a rt => exact invEq_next_mono cfg a rt s h
    | skip => exact invEq_skip_mono s h
    | prev => exact invEq_prev_mono s h
    | nav t => exact h
  · intro e h
    cases e with
    | next a rt => exact invLe_next_page cfg a rt s h
    | skip => exact invLe_skip_page s h
    | prev => exact invLe_prev_page s h
    | draft a => exact invLe_draft_page a s h
    | load => exact invLe_page_load s h
    | nav t => exact h
  · intro e hnd h
    cases e with
    | next a rt => exact invEq_next_page cfg a rt s h
    | skip => exact invEq_skip_page s h
    | prev => exact invEq_prev_page s h
    | draft a => exact absurd rfl (hnd a)
    | load => exact invEq_page_load s h
    | nav t => exact h

theorem C3_witness :
    invEq (mono_step CONFIG MonoEvent.skip s0)
    ∧ invLe (page_step CONFIG (PageEvent.draft "Jawaban draf.") s0)
    ∧ invEq (page_step CONFIG PageEvent.skip s0) :=
  ⟨(C3_amended_invariants CONFIG s0).1 MonoEvent.skip ⟨rfl, by decide⟩,
   (C3_amended_invariants CONFIG s0).2.1 (PageEvent.draft "Jawaban draf.")
     ⟨by decide, by decide⟩,
   (C3_amended_invariants CONFIG s0).2.2 PageEvent.skip
     (fun a h => by simp at h) ⟨rfl, by decide⟩⟩

/-! ## Claim C4 -/

/-- Fifty space characters: length exactly 50, but whitespace-only. -/
def spaces50 : String := String.mk (List.replicate 50 ' ')

def answer49 : String := String.mk (List.replicate 49 'a')

def answer50 : String := String.mk (List.replicate 50 'a')

/-- Claim C4 counterexample: the modular `Berikutnya ➡️` handler rejects a
whitespace-only answer before the length check, so this answer of length
exactly 50 is NOT accepted — the state (position and answers list included)
is unchanged. -/
theorem C4_counterexample :
    spaces50.length = 50
    ∧ s0.current_question_idx < s0.questions.length
    ∧ interview_next_page CONFIG spaces50 7 s0 = s0 :=
  ⟨by decide, by decide, by decide⟩

/-- Claim C4, amended: with the default minimum of 50, a 49-character answer
is rejected by both submit handlers and the state is unchanged; a 50-character
answer is accepted by the monolithic handler, and by the modular handler
provided it is not whitespace-only, advancing the position by one and
entering the results stage when the last question was just answered. -/
theorem C4_amended (s : SessionState) (answer : String) (rt : Nat)
    (hidx : s.current_question_idx < s.questions.length) :
    (answer.length = 49 →
      interview_next_mono CONFIG answer rt s = s
      ∧ interview_next_page CONFIG answer rt s = s)
    ∧ (answer.length = 50 →
      ((interview_next_mono CONFIG answer rt s).current_question_idx
          = s.current_question_idx + 1
        ∧ (interview_next_mono CONFIG answer rt s).stage
          = (if s.questions.length ≤ s.current_question_idx + 1 then Stage.results
              else s.stage))
      ∧ (pyStrip answer ≠ "" →
        (interview_next_page CONFIG answer rt s).current_question_idx
            = s.current_question_idx + 1
        ∧ (interview_next_page CONFIG answer rt s).stage
          = (if s.questions.length ≤ s.current_question_idx + 1 then Stage.results
              else s.stage))) := by
  constructor
  · intro h49
    constructor
    · unfold interview_next_mono
      rw [if_pos hidx, if_pos (Or.inr (by rw [h49]; decide))]
    · unfold interview_next_page
      rw [if_pos hidx]
      by_cases hs : answer = "" ∨ pyStrip answer = ""
      · rw [if_pos hs]
      · rw [if_neg hs, if_pos (by rw [h49]; decide)]
  · intro h50
    have hne : ¬(answer = "" ∨ answer.length < CONFIG.min_answer_length) := by
      rintro (h0 | hlt)
      · rw [h0] at h50
        exact absurd h50 (by decide)
      · rw [h50] at hlt
        exact absurd hlt (by decide)
    constructor
    · unfold interview_next_mono
      rw [if_pos hidx, if_neg hne]
      dsimp only
      split_ifs <;> simp_all
    · intro hws
      have hne2 : ¬(answer = "" ∨ pyStrip answer = "") := by
        rintro (h0 | h1)
        · rw [h0] at h50
          exact absurd h50 (by decide)
        · exact hws h1
      have hlt : ¬ answer.length < CONFIG.min_answer_length := by
        rw [h50]; decide
      unfold interview_next_page
      rw [if_pos hidx, if_neg hne2, if_neg hlt]
      dsimp only
      split_ifs <;> simp_all

theorem C4_witness :
    (interview_next_mono CONFIG answer49 7 s0 = s0
      ∧ interview_next_page CONFIG answer49 7 s0 = s0)
    ∧ (interview_next_page CONFIG answer50 7 s0).current_question_idx
        = s0.current_question_idx + 1 :=
  ⟨(C4_amended s0 answer49 7 (by decide)).1 (by decide),
   ((((C4_amended s0 answer50 7 (by decide)).2) (by decide)).2 (by decide)).1⟩

/-! ## Claim C5 -/

/-- A résumé of raw length exactly 100 whose last five characters are
whitespace, so its stripped length is 95. -/
def cvPadded : String :=
  "experience" ++ String.mk (List.replicate 85 'x') ++ String.mk (List.replicate 5 ' ')

/-- A valid résumé: keyword present, stripped length 111. -/
def cvValid : String := "experience " ++ String.mk (List.replicate 100 'x')

/-- A fresh session at the intake stage. -/
def inputSession : SessionState :=
  { questions := []
    answers := []
    answer_metadata := []
    current_question_idx := 0
    stage := Stage.input }

/-- Claim C5 counterexample: this résumé is non-empty, has raw length 100
(inside the claimed `[100, 10000]` window), contains the keyword
`experience`, and the target job is non-empty — yet `validate_cv` rejects it
(its minimum-length check runs on the whitespace-stripped text, length 95)
and the intake submission reports an error without advancing the stage. -/
theorem C5_counterexample :
    cvPadded.length = 100
    ∧ cvPadded.length ≤ 10000
    ∧ strContainsSub (pyLower cvPadded) "experience" = true
    ∧ "Software Engineer" ≠ ""
    ∧ (validate_cv cvPadded).1 = false
    ∧ (show_input_stage_submit cvPadded "Software Engineer" [] inputSession).1.stage
        = Stage.input
    ∧ ((show_input_stage_submit cvPadded "Software Engineer" [] inputSession).2).isSome
        = true :=
  ⟨by decide, by decide, by decide, by decide, by decide, by decide, by decide⟩

/-- Claim C5, amended: the intake submission advances from Intake to
Interviewing if and only if the *stripped* résumé length is at least 100, the
raw length is at most 10000, an experience-or-skill keyword occurs, and the
target job is non-empty; otherwise an error is reported at the point of
submission and the state is unchanged. -/
theorem C5_amended (cv job : String) (qs : List Question) (s : SessionState) :
    ((100 ≤ (pyStrip cv).length ∧ cv.length ≤ 10000
        ∧ (experienceWords.any (fun w => strContainsSub (pyLower cv) w)
            || skillWords.any (fun w => strContainsSub (pyLower cv) w)) = true
        ∧ job ≠ "") →
      (show_input_stage_submit cv job qs s).1.stage = Stage.interview
      ∧ (show_input_stage_submit cv job qs s).2 = none)
    ∧ ((¬(100 ≤ (pyStrip cv).length ∧ cv.length ≤ 10000
        ∧ (experienceWords.any (fun w => strContainsSub (pyLower cv) w)
            || skillWords.any (fun w => strContainsSub (pyLower cv) w)) = true
        ∧ job ≠ "")) →
      (show_input_stage_submit cv job qs s).1 = s
      ∧ ((show_input_stage_submit cv job qs s).2).isSome = true) := by
  constructor
  · rintro ⟨h1, h2, h3, h4⟩
    have hcv : cv ≠ "" := by
      intro h0
      rw [h0] at h1
      exact absurd h1 (by decide)
    have hv : validate_cv cv = (true, "CV valid") := by
      unfold validate_cv
      rw [if_neg, if_neg, if_neg]
      · simp [h3]
      · omega
      · rintro (h | h)
        · exact hcv h
        · omega
    simp [show_input_stage_submit, hcv, hv, h4]
  · intro hn
    by_cases hcv : cv = ""
    · simp [show_input_stage_submit, hcv]
    · by_cases h1 : 100 ≤ (pyStrip cv).length
      · by_cases h2 : cv.length ≤ 10000
        · by_cases h3 : (experienceWords.any (fun w => strContainsSub (pyLower cv) w)
              || skillWords.any (fun w => strContainsSub (pyLower cv) w)) = true
          · by_cases h4 : job = ""
            · have hv : validate_cv cv = (true, "CV valid") := by
                unfold validate_cv
                rw [if_neg, if_neg, if_neg]
                · simp [h3]
                · omega
                · rintro (h | h)
                  · exact hcv h
                  · omega
              simp [show_input_stage_submit, hcv, hv, h4]
            · exact absurd ⟨h1, h2, h3, h4⟩ hn
          · have hv : (validate_cv cv).1 = false := by
              unfold validate_cv
              rw [if_neg, if_neg]
              · simp_all
              · omega
              · rintro (h | h)
                · exact hcv h
                · omega
            simp [show_input_stage_submit, hcv, hv]
        · have hv : (validate_cv cv).1 = false := by
            unfold validate_cv
            rw [if_neg, if_pos]
            · omega
            · rintro (h | h)
              · exact hcv h
              · omega
          simp [show_input_stage_submit, hcv, hv]
      · have hv : (validate_cv cv).1 = false := by
          unfold validate_cv
          rw [if_pos]
          exact Or.inr (by omega)
        simp [show_input_stage_submit, hcv, hv]

theorem C5_witness :
    (show_input_stage_submit cvValid "Software Engineer" [sampleQuestion]
        inputSession).1.stage = Stage.interview
    ∧ (show_input_stage_submit cvValid "Software Engineer" [sampleQuestion]
        inputSession).2 = none :=
  (C5_amended cvValid "Software Engineer" [sampleQuestion] inputSession).1
    ⟨by decide, by decide, by decide, by decide⟩

/-! ## Claim C6 -/

/-- A stored result row whose scores all equal `t` (concrete analytics
input). -/
def mkScoreRow (t : ℚ) : ResultRow :=
  { user_id := "user_1"
    session_id := "session_t"
    job_title := "Software Engineer"
    difficulty_level := some "Sedang"
    komunikasi := t
    problem_solving := t
    leadership := t
    teamwork := t
    pengetahuan_teknis := t
    adaptabilitas := t
    kreativitas := t
    critical_thinking := t
    total_score := t
    pass_status := decide ((70 : ℚ) ≤ t)
    interview_duration := 600
    questions_answered := 2
    interview_transcript := none
    detailed_feedback := none
    recommendations := none }

/-- Claim C6 counterexample: the modular analytics operation
(`src/database/manager.py` `get_analytics_data`) computes its improvement
rate as `AVG(total_score) - avg_score` over the same rows, which is 0 for the
chronological scores first=50, last=75 — not the +50.0 percent the claim
requires of every analytics operation in the repository. -/
theorem C6_counterexample :
    improvement_rate_modular [50, 75] = 0
    ∧ (((75 : ℚ) - 50) / 50) * 100 = 50
    ∧ (0 : ℚ) ≠ 50 := by
  refine ⟨?_, by norm_num, by norm_num⟩
  norm_num [improvement_rate_modular, sqlAvg]

theorem round2_zero : round2 0 = 0 := by
  norm_num [round2, pyRoundInt]

/-- Claim C6, amended: the monolithic analytics operation
(`src/Interview.py` `get_analytics_data`) reports an improvement rate of
exactly 0 when there are fewer than two results or the first chronological
score is not positive, and otherwise the percent change
`((last - first) / first) * 100` rounded to two decimals (for first=50,
last=75 that is +50.0); the modular analytics operation in
`src/database/manager.py` reports an improvement rate of 0 for every user. -/
theorem C6_amended :
    (∀ scores : List ℚ, scores.length < 2 → round2 (improvement_rate_raw scores) = 0)
    ∧ (∀ scores : List ℚ, ¬0 < scores.headD 0 →
        round2 (improvement_rate_raw scores) = 0)
    ∧ (∀ scores : List ℚ, 2 ≤ scores.length → 0 < scores.headD 0 →
        round2 (improvement_rate_raw scores)
          = round2 (((scores.getLastD 0 - scores.headD 0) / scores.headD 0) * 100))
    ∧ (get_analytics_data [mkScoreRow 50, mkScoreRow 75]).improvement_rate = 50
    ∧ (∀ scores : List ℚ, improvement_rate_modular scores = 0) := by
  refine ⟨?_, ?_, ?_, ?_, ?_⟩
  · intro scores h
    unfold improvement_rate_raw
    rw [if_neg (by omega)]
    exact round2_zero
  · intro scores h
    unfold improvement_rate_raw
    rcases le_or_lt 2 scores.length with h2 | h2
    · rw [if_pos h2, if_neg h]
      exact round2_zero
    · rw [if_neg (by omega)]
      exact round2_zero
  · intro scores h1 h2
    unfold improvement_rate_raw
    rw [if_pos h1, if_pos h2]
  · show round2 (improvement_rate_raw [(50 : ℚ), 75]) = 50
    norm_num [improvement_rate_raw, round2, pyRoundInt]
  · intro scores
    unfold improvement_rate_modular sqlAvg
    split_ifs <;> simp

theorem C6_witness :
    round2 (improvement_rate_raw [(60 : ℚ)]) = 0
    ∧ round2 (improvement_rate_raw [(0 : ℚ), 75]) = 0
    ∧ improvement_rate_modular [(50 : ℚ), 75] = 0 :=
  ⟨C6_amended.1 [(60 : ℚ)] (by decide),
   C6_amended.2.1 [(0 : ℚ), 75] (by norm_num),
   C6_amended.2.2.2.2 [(50 : ℚ), 75]⟩

/-! ## Claim C7 -/

theorem pyFoldMax_ge (xs : List (String × ℚ)) (acc : String × ℚ) :
    acc.2 ≤ (xs.foldl (fun a y => if a.2 < y.2 then y else a) acc).2
    ∧ ∀ y ∈ xs, y.2 ≤ (xs.foldl (fun a y => if a.2 < y.2 then y else a) acc).2 := by
  induction xs generalizing acc with
  | nil => exact ⟨le_refl _, by simp⟩
  | cons z t ih =>
    simp only [List.foldl_cons]
    have h := ih (if acc.2 < z.2 then z else acc)
    constructor
    · refine le_trans ?_ h.1
      split_ifs with hz
      · exact le_of_lt hz
      · exact le_refl _
    · intro y hy
      rcases List.mem_cons.mp hy with rfl | hyt
      · refine le_trans ?_ h.1
        split_ifs with hz
        · exact le_refl _
        · exact le_of_not_lt hz
      · exact h.2 y hyt

theorem pyFoldMax_find (xs : List (String × ℚ)) (acc : String × ℚ) :
    xs.foldl (fun a y => if a.2 < y.2 then y else a) acc = acc
    ∨ (xs.find? (fun y =>
          decide ((xs.foldl (fun a y => if a.2 < y.2 then y else a) acc).2 ≤ y.2))
        = some (xs.foldl (fun a y => if a.2 < y.2 then y else a) acc)
      ∧ acc.2 < (xs.foldl (fun a y => if a.2 < y.2 then y else a) acc).2) := by
  induction xs generalizing acc with
  | nil => exact Or.inl rfl
  | cons z t ih =>
    simp only [List.foldl_cons]
    by_cases hz : acc.2 < z.2
    · simp only [if_pos hz]
      rcases ih z with h | ⟨hf, hlt⟩
      · simp only [h]
        refine Or.inr ⟨?_, hz⟩
        rw [List.find?_cons_of_pos]
        simp
      · refine Or.inr ⟨?_, lt_trans hz hlt⟩
        rw [List.find?_cons_of_neg]
        · exact hf
        · simp only [decide_eq_true_eq, not_le]
          exact hlt
    · simp only [if_neg hz]
      rcases ih acc with h | ⟨hf, hlt⟩
      · exact Or.inl h
      · refine Or.inr ⟨?_, hlt⟩
        rw [List.find?_cons_of_neg]
        · exact hf
        · simp only [decide_eq_true_eq, not_le]
          exact lt_of_le_of_lt (le_of_not_lt hz) hlt

theorem pyFoldMin_le (xs : List (String × ℚ)) (acc : String × ℚ) :
    (xs.foldl (fun a y => if y.2 < a.2 then y else a) acc).2 ≤ acc.2
    ∧ ∀ y ∈ xs, (xs.foldl (fun a y => if y.2 < a.2 then y else a) acc).2 ≤ y.2 := by
  induction xs generalizing acc with
  | nil => exact ⟨le_refl _, by simp⟩
  | cons z t ih =>
    simp only [List.foldl_cons]
    have h := ih (if z.2 < acc.2 then z else acc)
    constructor
    · refine le_trans h.1 ?_
      split_ifs with hz
      · exact le_of_lt hz
      · exact le_refl _
    · intro y hy
      rcases List.mem_cons.mp hy with rfl | hyt
      · refine le_trans h.1 ?_
        split_ifs with hz
        · exact le_refl _
        · exact le_of_not_lt hz
      · exact h.2 y hyt

theorem pyFoldMin_find (xs : List (String × ℚ)) (acc : String × ℚ) :
    xs.foldl (fun a y => if y.2 < a.2 then y else a) acc = acc
    ∨ (xs.find? (fun y =>
          decide (y.2 ≤ (xs.foldl (fun a y => if y.2 < a.2 then y else a) acc).2))
        = some (xs.foldl (fun a y => if y.2 < a.2 then y else a) acc)
      ∧ (xs.foldl (fun a y => if y.2 < a.2 then y else a) acc).2 < acc.2) := by
  induction xs generalizing acc with
  | nil => exact Or.inl rfl
  | cons z t ih =>
    simp only [List.foldl_cons]
    by_cases hz : z.2 < acc.2
    · simp only [if_pos hz]
      rcases ih z with h | ⟨hf, hlt⟩
      · simp only [h]
        refine Or.inr ⟨?_, hz⟩
        rw [List.find?_cons_of_pos]
        simp
      · refine Or.inr ⟨?_, lt_trans hlt hz⟩
        rw [List.find?_cons_of_neg]
        · exact hf
        · simp only [decide_eq_true_eq, not_le]
          exact hlt
    · simp only [if_neg hz]
      rcases ih acc with h | ⟨hf, hlt⟩
      · exact Or.inl h
      · refine Or.inr ⟨?_, hlt⟩
        rw [List.find?_cons_of_neg]
        · exact hf
        · simp only [decide_eq_true_eq, not_le]
          exact lt_of_lt_of_le hlt (le_of_not_lt hz)

theorem pyMaxBySnd_spec (x : String × ℚ) (xs : List (String × ℚ)) :
    (∀ y ∈ x :: xs, y.2 ≤ ((pyMaxBySnd (x :: xs)).getD ("N/A", 0)).2)
    ∧ (x :: xs).find?
        (fun y => decide (((pyMaxBySnd (x :: xs)).getD ("N/A", 0)).2 ≤ y.2))
        = some ((pyMaxBySnd (x :: xs)).getD ("N/A", 0)) := by
  simp only [pyMaxBySnd, Option.getD_some]
  constructor
  · intro y hy
    rcases List.mem_cons.mp hy with rfl | hyt
    · exact (pyFoldMax_ge xs y).1
    · exact (pyFoldMax_ge xs x).2 y hyt
  · rcases pyFoldMax_find xs x with h | ⟨hf, hlt⟩
    · simp only [h]
      rw [List.find?_cons_of_pos]
      simp
    · rw [List.find?_cons_of_neg]
      · exact hf
      · simp only [decide_eq_true_eq, not_le]
        exact hlt

theorem pyMinBySnd_spec (x : String × ℚ) (xs : List (String × ℚ)) :
    (∀ y ∈ x :: xs, ((pyMinBySnd (x :: xs)).getD ("N/A", 0)).2 ≤ y.2)
    ∧ (x :: xs).find?
        (fun y => decide (y.2 ≤ ((pyMinBySnd (x :: xs)).getD ("N/A", 0)).2))
        = some ((pyMinBySnd (x :: xs)).getD ("N/A", 0)) := by
  simp only [pyMinBySnd, Option.getD_some]
  constructor
  · intro y hy
    rcases List.mem_cons.mp hy with rfl | hyt
    · exact (pyFoldMin_le xs y).1
    · exact (pyFoldMin_le xs x).2 y hyt
  · rcases pyFoldMin_find xs x with h | ⟨hf, hlt⟩
    · simp only [h]
      rw [List.find?_cons_of_pos]
      simp
    · rw [List.find?_cons_of_neg]
      · exact hf
      · simp only [decide_eq_true_eq, not_le]
        exact hlt

/-- Claim C7: the strongest area is the category of maximal average and the
weakest the category of minimal average over the six category averages; ties
resolve to the first-encountered key in iteration order (`find?` returning
the selected entry states exactly that every earlier entry is strictly
smaller/greater); and on the spec's example — communication 80, technical
knowledge 40, the rest 60 — strongest resolves to communication and weakest
to technical knowledge. -/
theorem C7_strongest_weakest :
    (∀ kom ps lead team tech adapt : ℚ,
      (∀ y ∈ analytics_areas kom ps lead team tech adapt,
          y.2 ≤ (strongest_area kom ps lead team tech adapt).2)
      ∧ (analytics_areas kom ps lead team tech adapt).find?
          (fun y => decide ((strongest_area kom ps lead team tech adapt).2 ≤ y.2))
          = some (strongest_area kom ps lead team tech adapt)
      ∧ (∀ y ∈ analytics_areas kom ps lead team tech adapt,
          (weakest_area kom ps lead team tech adapt).2 ≤ y.2)
      ∧ (analytics_areas kom ps lead team tech adapt).find?
          (fun y => decide (y.2 ≤ (weakest_area kom ps lead team tech adapt).2))
          = some (weakest_area kom ps lead team tech adapt))
    ∧ strongest_area 80 60 60 60 40 60 = ("Komunikasi", 80)
    ∧ weakest_area 80 60 60 60 40 60 = ("Pengetahuan Teknis", 40) := by
  refine ⟨?_, by decide, by decide⟩
  intro kom ps lead team tech adapt
  have hmax := pyMaxBySnd_spec ("Komunikasi", kom)
    [("Problem Solving", ps), ("Leadership", lead), ("Teamwork", team),
     ("Pengetahuan Teknis", tech), ("Adaptabilitas", adapt)]
  have hmin := pyMinBySnd_spec ("Komunikasi", kom)
    [("Problem Solving", ps), ("Leadership", lead), ("Teamwork", team),
     ("Pengetahuan Teknis", tech), ("Adaptabilitas", adapt)]
  exact ⟨hmax.1, hmax.2, hmin.1, hmin.2⟩

theorem C7_witness :
    (("Komunikasi", (80 : ℚ)).2 ≤ (strongest_area 80 60 60 60 40 60).2)
    ∧ ((weakest_area 80 60 60 60 40 60).2 ≤ ("Teamwork", (60 : ℚ)).2) :=
  ⟨(C7_strongest_weakest.1 80 60 60 60 40 60).1 ("Komunikasi", 80) (by decide),
   (C7_strongest_weakest.1 80 60 60 60 40 60).2.2.1 ("Teamwork", 60) (by decide)⟩

/-! ## Claim C8 -/

/-- A backend whose every cursor operation raises a storage error. -/
def failingDb : Db :=
  { profiles := [], results := [], qa := [], fail := some "disk I/O error" }

/-- A healthy backend. -/
def okDb : Db := { profiles := [], results := [], qa := [], fail := none }

/-- Claim C8 counterexample: `get_user_history` and `get_analytics_data` have
no `try/except`, so a storage failure propagates out of the persistence layer
as an exception instead of being surfaced as a boolean or empty-result
sentinel. -/
theorem C8_counterexample :
    get_user_history failingDb "user_1" 10 = Except.error "disk I/O error"
    ∧ get_analytics_data_db failingDb "user_1" = Except.error "disk I/O error" :=
  ⟨rfl, rfl⟩

/-- Claim C8, amended: the result-insert and QA-insert writes and the
monolithic profile upsert catch every storage failure and surface it as
`False` with the backend unchanged (returning `True` on success); the modular
profile upsert of `src/database/manager.py` returns `False` on every call —
healthy backend included — because its body always raises `NameError` at its
`json.dumps` argument (the module never imports `json`) and its own `except`
catches it; the fetch operations (`get_user_history`, `get_analytics_data`)
do not catch, and propagate the storage error to the caller. -/
theorem C8_amended (db : Db) (e session_id user_id : String) (rd : ResultData)
    (qa : QaData) (p : ProfileRow) (limit : Nat) :
    (db.fail = some e →
      save_interview_result CONFIG db session_id user_id rd = (db, false)
      ∧ save_qa_pair db session_id qa = (db, false)
      ∧ save_user_profile_mono db user_id p = (db, false)
      ∧ get_user_history db user_id limit = Except.error e
      ∧ get_analytics_data_db db user_id = Except.error e)
    ∧ (db.fail = none →
      (save_interview_result CONFIG db session_id user_id rd).2 = true
      ∧ (save_qa_pair db session_id qa).2 = true
      ∧ (save_user_profile_mono db user_id p).2 = true
      ∧ (∃ rows, get_user_history db user_id limit = Except.ok rows)
      ∧ (∃ a, get_analytics_data_db db user_id = Except.ok a))
    ∧ save_user_profile db user_id p = (db, false) := by
  refine ⟨?_, ?_, rfl⟩
  · intro h
    refine ⟨?_, ?_, ?_, ?_, ?_⟩ <;>
      simp [save_interview_result, save_qa_pair, save_user_profile_mono,
        get_user_history, get_analytics_data_db, h]
  · intro h
    refine ⟨?_, ?_, ?_, ?_, ?_⟩ <;>
      simp [save_interview_result, save_qa_pair, save_user_profile_mono,
        get_user_history, get_analytics_data_db, h]

theorem C8_witness :
    (save_interview_result CONFIG failingDb "session_1" "user_1" sampleResultData
        = (failingDb, false)
      ∧ get_user_history failingDb "user_1" 10 = Except.error "disk I/O error")
    ∧ (save_interview_result CONFIG okDb "session_1" "user_1" sampleResultData).2
        = true
    ∧ save_user_profile okDb "user_1" ⟨"user_1", none, none, "cv", "job"⟩
        = (okDb, false) :=
  ⟨⟨((C8_amended failingDb "disk I/O error" "session_1" "user_1" sampleResultData
        ⟨"user_1", 0, "komunikasi", "q", "a", 5⟩
        ⟨"user_1", none, none, "cv", "job"⟩ 10).1 rfl).1,
    ((C8_amended failingDb "disk I/O error" "session_1" "user_1" sampleResultData
        ⟨"user_1", 0, "komunikasi", "q", "a", 5⟩
        ⟨"user_1", none, none, "cv", "job"⟩ 10).1 rfl).2.2.2.1⟩,
   ((C8_amended okDb "disk I/O error" "session_1" "user_1" sampleResultData
        ⟨"user_1", 0, "komunikasi", "q", "a", 5⟩
        ⟨"user_1", none, none, "cv", "job"⟩ 10).2.1 rfl).1,
   (C8_amended okDb "disk I/O error" "session_1" "user_1" sampleResultData
        ⟨"user_1", 0, "komunikasi", "q", "a", 5⟩
        ⟨"user_1", none, none, "cv", "job"⟩ 10).2.2⟩

/-! ## Claim C9 -/

/-- Claim C9 counterexample: for the same in-memory session — two questions,
one real answer, one skipped — the monolithic `show_results_stage` and the
modular `show_results_page` build different `result_data` records
(`questions_answered` 1 vs 2, transcript and recommendations present vs
absent), and the monolithic handler writes a QA history entry while the
modular one writes none. -/
theorem C9_counterexample :
    (result_data_mono "Software Engineer" (some "Sedang") get_fallback_evaluation
        900 [sampleQuestion, sampleQuestion2] [sampleAnswer, skippedSentinel]).questions_answered
      = 1
    ∧ (result_data_page "Software Engineer" (some "Sedang") get_fallback_evaluation
        900 [sampleAnswer, skippedSentinel]).questions_answered = 2
    ∧ result_data_mono "Software Engineer" (some "Sedang") get_fallback_evaluation
        900 [sampleQuestion, sampleQuestion2] [sampleAnswer, skippedSentinel]
      ≠ result_data_page "Software Engineer" (some "Sedang") get_fallback_evaluation
        900 [sampleAnswer, skippedSentinel]
    ∧ qa_history_mono "user_1" [sampleQuestion, sampleQuestion2]
        [sampleAnswer, skippedSentinel] [⟨5, false⟩, ⟨0, true⟩]
      ≠ qa_history_page :=
  ⟨by decide, by decide, by decide, by decide⟩

/-- Claim C9, amended: the two results implementations are not fully
equivalent.  For the same session and evaluation they persist rows that agree
on user, session, job title, difficulty, all eight category scores, total
score, pass flag and duration — but the modular page counts skipped answers
in `questions_answered` (the counts coincide exactly when no answer is the
skip sentinel), stores no transcript and no recommendations, and writes no QA
history entries. -/
theorem C9_amended (session_id user_id job_title : String)
    (difficulty : Option String) (ev : Evaluation) (duration : Nat)
    (questions : List Question) (answers : List String) :
    interview_result_row CONFIG session_id user_id
        (result_data_mono job_title difficulty ev duration questions answers)
      = { interview_result_row CONFIG session_id user_id
            (result_data_page job_title difficulty ev duration answers) with
          questions_answered := (answers.filter (fun a => a ≠ skippedSentinel)).length
          interview_transcript := some (questions.zip answers)
          recommendations := some ev.recommendation }
    ∧ (skippedSentinel ∉ answers →
        (result_data_mono job_title difficulty ev duration questions answers).questions_answered
          = (result_data_page job_title difficulty ev duration answers).questions_answered)
    ∧ qa_history_page = [] := by
  refine ⟨rfl, ?_, rfl⟩
  intro hns
  simp only [result_data_mono, result_data_page]
  congr 1
  rw [List.filter_eq_self]
  intro a ha
  simp only [ne_eq, decide_eq_true_eq]
  intro h
  rw [h] at ha
  exact hns ha

theorem C9_witness :
    (result_data_mono "Software Engineer" (some "Sedang") get_fallback_evaluation
        900 [sampleQuestion, sampleQuestion2] [sampleAnswer, sampleAnswer]).questions_answered
      = (result_data_page "Software Engineer" (some "Sedang") get_fallback_evaluation
          900 [sampleAnswer, sampleAnswer]).questions_answered :=
  (C9_amended "session_1" "user_1" "Software Engineer" (some "Sedang")
    get_fallback_evaluation 900 [sampleQuestion, sampleQuestion2]
    [sampleAnswer, sampleAnswer]).2.1 (by decide)

/-! ## Claim C10 -/

theorem getD_append_lt {α : Type} (l : List α) (x d : α) (i : Nat)
    (h : i < l.length) : (l ++ [x]).getD i d = l.getD i d := by
  simp [List.getD_eq_getElem?_getD, List.getElem?_append, h]

theorem getD_append_len {α : Type} (l : List α) (x d : α) :
    (l ++ [x]).getD l.length d = x := by
  simp [List.getD_eq_getElem?_getD, List.getElem?_append_right (le_refl l.length)]

theorem getD_set_self {α : Type} (l : List α) (x d : α) (i : Nat)
    (h : i < l.length) : (l.set i x).getD i d = x := by
  simp [List.getD_eq_getElem?_getD, List.getElem?_set_self h]

theorem getD_set_ne {α : Type} (l : List α) (x d : α) (i j : Nat) (h : i ≠ j) :
    (l.set i x).getD j d = l.getD j d := by
  simp [List.getD_eq_getElem?_getD, List.getElem?_set_ne h]

/-- Every populated position holds either the skip sentinel paired with skip
metadata, or an answer of at least the configured minimum length paired with
non-skip metadata. -/
def goodLists (cfg : InterviewConfig) (answers : List String)
    (metadata : List AnswerMeta) : Prop :=
  metadata.length = answers.length
  ∧ ∀ i, i < answers.length →
      (answers.getD i "" = skippedSentinel ∧ metadata.getD i ⟨0, false⟩ = ⟨0, true⟩)
      ∨ (cfg.min_answer_length ≤ (answers.getD i "").length
          ∧ (metadata.getD i ⟨0, false⟩).skipped = false)

def goodEntries (cfg : InterviewConfig) (s : SessionState) : Prop :=
  goodLists cfg s.answers s.answer_metadata

theorem goodLists_append (cfg : InterviewConfig) (ans : List String)
    (meta : List AnswerMeta) (a : String) (m : AnswerMeta)
    (h : goodLists cfg ans meta)
    (hcase : (a = skippedSentinel ∧ m = ⟨0, true⟩)
      ∨ (cfg.min_answer_length ≤ a.length ∧ m.skipped = false)) :
    goodLists cfg (ans ++ [a]) (meta ++ [m]) := by
  obtain ⟨hlen, hinv⟩ := h
  constructor
  · simp [hlen]
  · intro i hi
    simp only [List.length_append, List.length_singleton] at hi
    rcases Nat.lt_succ_iff_lt_or_eq.mp hi with hlt | heq
    · rw [getD_append_lt ans a "" i hlt, getD_append_lt meta m ⟨0, false⟩ i (by omega)]
      exact hinv i hlt
    · subst heq
      rw [getD_append_len, show ans.length = meta.length from hlen.symm,
        getD_append_len]
      exact hcase

theorem goodLists_set (cfg : InterviewConfig) (ans : List String)
    (meta : List AnswerMeta) (i : Nat) (a : String) (m : AnswerMeta)
    (hi : i < ans.length) (h : goodLists cfg ans meta)
    (hcase : (a = skippedSentinel ∧ m = ⟨0, true⟩)
      ∨ (cfg.min_answer_length ≤ a.length ∧ m.skipped = false)) :
    goodLists cfg (ans.set i a) (meta.set i m) := by
  obtain ⟨hlen, hinv⟩ := h
  constructor
  · simp [hlen]
  · intro j hj
    rw [List.length_set] at hj
    by_cases hij : i = j
    · subst hij
      rw [getD_set_self ans a "" i hi, getD_set_self meta m ⟨0, false⟩ i (by omega)]
      exact hcase
    · rw [getD_set_ne ans a "" i j hij, getD_set_ne meta m ⟨0, false⟩ i j hij]
      exact hinv j hj

theorem goodEntries_next_mono (cfg : InterviewConfig) (a : String) (rt : Nat)
    (s : SessionState) (h : goodEntries cfg s) :
    goodEntries cfg (interview_next_mono cfg a rt s) := by
  unfold goodEntries at h ⊢
  unfold interview_next_mono
  by_cases hg : s.current_question_idx < s.questions.length
  · rw [if_pos hg]
    by_cases hr : a = "" ∨ a.length < cfg.min_answer_length
    · rw [if_pos hr]
      exact h
    · rw [if_neg hr]
      have hmin : cfg.min_answer_length ≤ a.length := by
        push_neg at hr
        exact hr.2
      dsimp only
      by_cases hfr : s.answers.length ≤ s.current_question_idx
      · simp only [if_pos hfr]
        split_ifs <;>
          exact goodLists_append cfg s.answers s.answer_metadata a ⟨rt, false⟩ h
            (Or.inr ⟨hmin, rfl⟩)
      · simp only [if_neg hfr]
        split_ifs <;>
          exact goodLists_set cfg s.answers s.answer_metadata
            s.current_question_idx a ⟨rt, false⟩ (by omega) h (Or.inr ⟨hmin, rfl⟩)
  · rw [if_neg hg]
    exact h

theorem goodEntries_skip_mono (s : SessionState) (cfg : InterviewConfig)
    (h : goodEntries cfg s) : goodEntries cfg (interview_skip_mono s) := by
  unfold goodEntries at h ⊢
  unfold interview_skip_mono
  by_cases hg : s.current_question_idx < s.questions.length
  · rw [if_pos hg]
    dsimp only
    by_cases hfr : s.current_question_idx < s.answers.length
    · simp only [if_pos hfr]
      split_ifs <;> exact h
    · simp only [if_neg hfr]
      split_ifs <;>
        exact goodLists_append cfg s.answers s.answer_metadata skippedSentinel
          ⟨0, true⟩ h (Or.inl ⟨rfl, rfl⟩)
  · rw [if_neg hg]
    exact h

theorem goodEntries_prev_mono (s : SessionState) (cfg : InterviewConfig)
    (h : goodEntries cfg s) : goodEntries cfg (interview_prev_mono s) := by
  unfold goodEntries at h ⊢
  unfold interview_prev_mono
  split_ifs <;> exact h

theorem goodEntries_mono_step (cfg : InterviewConfig) (e : MonoEvent)
    (s : SessionState) (h : goodEntries cfg s) :
    goodEntries cfg (mono_step cfg e s) := by
  cases e with
  | next a rt => exact goodEntries_next_mono cfg a rt s h
  | skip => exact goodEntries_skip_mono s cfg h
  | prev => exact goodEntries_prev_mono s cfg h
  | nav t => exact h

theorem goodEntries_mono_run (cfg : InterviewConfig) (es : List MonoEvent)
    (s : SessionState) (h : goodEntries cfg s) :
    goodEntries cfg (mono_run cfg es s) := by
  induction es generalizing s with
  | nil => exact h
  | cons e t ih =>
    exact ih (mono_step cfg e s) (goodEntries_mono_step cfg e s h)

theorem goodEntries_init (cfg : InterviewConfig) (qs : List Question) :
    goodEntries cfg (init_session qs) := by
  refine ⟨rfl, ?_⟩
  intro i hi
  simp [init_session] at hi

/-- Claim C10: in every state reachable by the monolithic interview stage,
the metadata list parallels the answers list; every entry whose metadata says
it was not skipped is an answer of at least the configured minimum length
(so it came from the submit handler, which enforces that bound); and whenever
the configured minimum exceeds 9 — the length of `"[Skipped]"` — an entry
equal to the sentinel can only have been produced by the skip action, whose
parallel metadata entry is `skipped=True, response_time=0`. -/
theorem C10_sentinel_only_from_skip (cfg : InterviewConfig)
    (hmin : 9 < cfg.min_answer_length) (qs : List Question)
    (es : List MonoEvent) :
    (mono_run cfg es (init_session qs)).answer_metadata.length
      = (mono_run cfg es (init_session qs)).answers.length
    ∧ (∀ i, i < (mono_run cfg es (init_session qs)).answers.length →
        ((mono_run cfg es (init_session qs)).answer_metadata.getD i ⟨0, false⟩).skipped
            = false →
        cfg.min_answer_length
          ≤ ((mono_run cfg es (init_session qs)).answers.getD i "").length)
    ∧ (∀ i, i < (mono_run cfg es (init_session qs)).answers.length →
        (mono_run cfg es (init_session qs)).answers.getD i "" = skippedSentinel →
        (mono_run cfg es (init_session qs)).answer_metadata.getD i ⟨0, false⟩
          = ⟨0, true⟩) := by
  obtain ⟨hlen, hinv⟩ :=
    goodEntries_mono_run cfg es (init_session qs) (goodEntries_init cfg qs)
  refine ⟨hlen, ?_, ?_⟩
  · intro i hi hsk
    rcases hinv i hi with ⟨hs, hm⟩ | ⟨hl, hn⟩
    · rw [hm] at hsk
      exact absurd hsk (by decide)
    · exact hl
  · intro i hi hs
    rcases hinv i hi with ⟨_, hm⟩ | ⟨hl, _⟩
    · exact hm
    · exfalso
      rw [hs] at hl
      have h9 : skippedSentinel.length = 9 := by decide
      omega

theorem C10_witness :
    9 < CONFIG.min_answer_length
    ∧ (mono_run CONFIG [MonoEvent.skip] (init_session [sampleQuestion])).answer_metadata.getD
        0 ⟨0, false⟩ = ⟨0, true⟩ :=
  ⟨by decide,
   (C10_sentinel_only_from_skip CONFIG (by decide) [sampleQuestion]
      [MonoEvent.skip]).2.2 0 (by decide) (by decide)⟩
